import Mathlib

/-!
Shallow embedding of `src/src/index.ts` (revskill10/simple-machine): a toy
machine (Storage, RegisterFile, ALU, ControlUnit, CPU) and a small OS layer
(Process, Scheduler, SimpleOS).  JavaScript numbers that occur in this program
are either mathematical integers or the special values Infinity, -Infinity and
NaN produced by division; they are modelled by `JSVal`.  The source never
truncates arithmetic, so integers are modelled as unbounded `Int` with bit
masks applied through an explicit 32-bit coercion, exactly where the source
applies a bitwise operator.
-/

/-- A JavaScript number as it can occur in this program: an integer, or one of
the non-finite values that `a / 0` produces. -/
inductive JSVal : Type
  | int (n : Int)
  | posInf
  | negInf
  | nan
  deriving DecidableEq, Repr

/-- JavaScript `+` on the values above (integer addition, with the IEEE rules
for NaN and the infinities). -/
def jsAdd : JSVal → JSVal → JSVal
  | .int a, .int b => .int (a + b)
  | .nan, _ => .nan
  | _, .nan => .nan
  | .posInf, .negInf => .nan
  | .negInf, .posInf => .nan
  | .posInf, _ => .posInf
  | _, .posInf => .posInf
  | .negInf, _ => .negInf
  | _, .negInf => .negInf

/-- JavaScript `-` on the values above. -/
def jsSub : JSVal → JSVal → JSVal
  | .int a, .int b => .int (a - b)
  | .nan, _ => .nan
  | _, .nan => .nan
  | .posInf, .posInf => .nan
  | .negInf, .negInf => .nan
  | .posInf, _ => .posInf
  | .negInf, _ => .negInf
  | _, .posInf => .negInf
  | _, .negInf => .posInf

/-- JavaScript `*` on the values above. -/
def jsMul : JSVal → JSVal → JSVal
  | .int a, .int b => .int (a * b)
  | .nan, _ => .nan
  | _, .nan => .nan
  | .posInf, .posInf => .posInf
  | .posInf, .negInf => .negInf
  | .negInf, .posInf => .negInf
  | .negInf, .negInf => .posInf
  | .posInf, .int b => if 0 < b then .posInf else if b < 0 then .negInf else .nan
  | .negInf, .int b => if 0 < b then .negInf else if b < 0 then .posInf else .nan
  | .int a, .posInf => if 0 < a then .posInf else if a < 0 then .negInf else .nan
  | .int a, .negInf => if 0 < a then .negInf else if a < 0 then .posInf else .nan

/-- JavaScript `Math.floor(a / b)`: for integers with `b ≠ 0` this is floor
division (`Int.fdiv`); division by zero yields `Infinity`, `-Infinity` or
`NaN` according to the sign of the dividend, and `Math.floor` fixes the
non-finite values. -/
def mathFloorDiv : JSVal → JSVal → JSVal
  | .nan, _ => .nan
  | _, .nan => .nan
  | .int a, .int b =>
      if b = 0 then (if 0 < a then .posInf else if a < 0 then .negInf else .nan)
      else .int (Int.fdiv a b)
  | .posInf, .int b => if b < 0 then .negInf else .posInf
  | .negInf, .int b => if b < 0 then .posInf else .negInf
  | .posInf, .posInf => .nan
  | .posInf, .negInf => .nan
  | .negInf, .posInf => .nan
  | .negInf, .negInf => .nan
  | .int _, .posInf => .int 0
  | .int _, .negInf => .int 0

instance {ε α : Type} [DecidableEq ε] [DecidableEq α] :
    DecidableEq (Except ε α) := fun a b =>
  match a, b with
  | .ok x, .ok y =>
      if h : x = y then .isTrue (by rw [h]) else .isFalse (by simp [h])
  | .error x, .error y =>
      if h : x = y then .isTrue (by rw [h]) else .isFalse (by simp [h])
  | .ok _, .error _ => .isFalse (by simp)
  | .error _, .ok _ => .isFalse (by simp)

/-- The error values this program can raise (`throw new Error(...)` in the
source), plus the `TypeError` the JavaScript runtime raises when a
`RegisterFile` is indexed past its end (`this.registers[index]` is `undefined`
and `.read()` on it crashes). -/
inductive JsError : Type
  | unsupportedOperation (op : String)
  | unknownOpcode (opcode : Nat)
  | processNotFound (pid : Nat)
  | typeError
  deriving DecidableEq, Repr

/-- `ALU.execute` from the source: a switch on the operation string. -/
def ALU.execute (operation : String) (operand1 operand2 : JSVal) :
    Except JsError JSVal :=
  if operation = "ADD" then .ok (jsAdd operand1 operand2)
  else if operation = "SUB" then .ok (jsSub operand1 operand2)
  else if operation = "MUL" then .ok (jsMul operand1 operand2)
  else if operation = "DIV" then .ok (mathFloorDiv operand1 operand2)
  else .error (.unsupportedOperation operation)

/-- `Storage` from the source: a JavaScript array created by
`new Array(size).fill(0)`.  A cell is `Option Int`: `some n` is an integer
number stored there; `none` is a cell holding no integer — an array hole
(which reads back as `undefined`) or a stored `NaN`.  Every operation of this
program treats `undefined` and `NaN` in a memory cell identically (both
coerce to 0 under the bitwise decode and neither equals any integer), so the
model identifies them. -/
structure Storage : Type where
  data : List (Option Int)
  deriving DecidableEq, Repr

/-- The `Storage` constructor: `size` cells, all 0. -/
def Storage.init (size : Nat) : Storage :=
  ⟨List.replicate size (some 0)⟩

/-- `Storage.read`: plain array indexing, no bounds check; an out-of-range
address yields `undefined` (modelled `none`).  A negative address in
JavaScript is a non-index property access, which likewise yields `undefined`
on a fresh object; the model restricts addresses to `Nat`. -/
def Storage.read (s : Storage) (address : Nat) : Option Int :=
  match s.data.get? address with
  | some cell => cell
  | none => none

/-- `Storage.write`: plain array assignment, no bounds check.  Assigning past
the end of a JavaScript array lengthens it, leaving holes before the new
cell.  The `data` argument is the JavaScript number being stored (`some n` an
integer, `none` a non-integer such as `NaN`). -/
def Storage.write (s : Storage) (address : Nat) (data : Option Int) : Storage :=
  if address < s.data.length then ⟨s.data.set address data⟩
  else ⟨s.data ++ List.replicate (address - s.data.length) none ++ [data]⟩

/-- `RegisterFile` from the source: an array of `Register`s, each holding a
number initialised to 0. -/
structure RegisterFile : Type where
  regs : List JSVal
  deriving DecidableEq, Repr

/-- The `RegisterFile` constructor: `size` registers, each value 0. -/
def RegisterFile.init (size : Nat) : RegisterFile :=
  ⟨List.replicate size (JSVal.int 0)⟩

/-- `RegisterFile.read`: `this.registers[index].read()`.  An out-of-range
index makes `this.registers[index]` `undefined` and the call crashes with a
`TypeError`. -/
def RegisterFile.read (rf : RegisterFile) (index : Nat) : Except JsError JSVal :=
  match rf.regs.get? index with
  | some v => .ok v
  | none => .error .typeError

/-- `RegisterFile.write`: same indexing, same `TypeError` past the end. -/
def RegisterFile.write (rf : RegisterFile) (index : Nat) (data : JSVal) :
    Except JsError RegisterFile :=
  if index < rf.regs.length then .ok ⟨rf.regs.set index data⟩
  else .error .typeError

/-- `ControlUnit` from the source: a single instruction pointer, initially 0. -/
structure ControlUnit : Type where
  instructionPointer : Nat
  deriving DecidableEq, Repr

/-- `ControlUnit.fetchInstruction`: `memory.read(this.instructionPointer++)` —
read the word at the pointer, then increment the pointer. -/
def ControlUnit.fetchInstruction (cu : ControlUnit) (memory : Storage) :
    Option Int × ControlUnit :=
  (memory.read cu.instructionPointer,
   { cu with instructionPointer := cu.instructionPointer + 1 })

/-- JavaScript `ToUint32`: the low 32 bits of the integer.  The source's
bitwise decode masks with constants below `2 ^ 15`, so the signed/unsigned
distinction of `ToInt32` is invisible. -/
def toUint32 (n : Int) : Nat :=
  (n % (4294967296 : Int)).toNat

/-- The value a fetched memory cell coerces to under the bitwise operators:
an integer is itself, and `undefined`/`NaN` coerce to 0. -/
def cellToNumber (cell : Option Int) : Int :=
  match cell with
  | some n => n
  | none => 0

/-- `opcode = (instruction & 0xF000) >> 12`. -/
def decodeOpcode (instruction : Int) : Nat :=
  Nat.shiftRight (Nat.land (toUint32 instruction) 0xF000) 12

/-- `operand1 = (instruction & 0x0F00) >> 8`. -/
def decodeOperand1 (instruction : Int) : Nat :=
  Nat.shiftRight (Nat.land (toUint32 instruction) 0x0F00) 8

/-- `operand2 = (instruction & 0x00F0) >> 4`. -/
def decodeOperand2 (instruction : Int) : Nat :=
  Nat.shiftRight (Nat.land (toUint32 instruction) 0x00F0) 4

/-- `destination = instruction & 0x000F`. -/
def decodeDestination (instruction : Int) : Nat :=
  Nat.land (toUint32 instruction) 0x000F

/-- `CPU` from the source: one register file and one control unit (the ALU is
stateless). -/
structure CPU : Type where
  registers : RegisterFile
  controlUnit : ControlUnit
  deriving DecidableEq, Repr

/-- The `CPU` constructor: a fresh zeroed register file, pointer 0. -/
def CPU.init (registerCount : Nat) : CPU :=
  ⟨RegisterFile.init registerCount, ⟨0⟩⟩

/-- `CPU.execute`: one fetch-decode-execute cycle.  The result carries the
outcome (a raised error propagates to the caller), the CPU state at the point
the cycle ends — the fetch has already advanced the instruction pointer even
when the cycle then throws — and the memory, which `execute` only ever reads. -/
def CPU.execute (cpu : CPU) (mem : Storage) :
    Except JsError Unit × CPU × Storage :=
  let fetched := cpu.controlUnit.fetchInstruction mem
  let cpu1 : CPU := { cpu with controlUnit := fetched.2 }
  let instruction : Int := cellToNumber fetched.1
  let opcode := decodeOpcode instruction
  let operand1 := decodeOperand1 instruction
  let operand2 := decodeOperand2 instruction
  let destination := decodeDestination instruction
  if opcode = 0x1 then
    match cpu1.registers.read operand1 with
    | .error e => (.error e, cpu1, mem)
    | .ok a =>
      match cpu1.registers.read operand2 with
      | .error e => (.error e, cpu1, mem)
      | .ok b =>
        match ALU.execute "ADD" a b with
        | .error e => (.error e, cpu1, mem)
        | .ok result =>
          match cpu1.registers.write destination result with
          | .error e => (.error e, cpu1, mem)
          | .ok rf => (.ok (), { cpu1 with registers := rf }, mem)
  else if opcode = 0x2 then
    match cpu1.registers.read operand1 with
    | .error e => (.error e, cpu1, mem)
    | .ok a =>
      match cpu1.registers.read operand2 with
      | .error e => (.error e, cpu1, mem)
      | .ok b =>
        match ALU.execute "SUB" a b with
        | .error e => (.error e, cpu1, mem)
        | .ok subResult =>
          match cpu1.registers.write destination subResult with
          | .error e => (.error e, cpu1, mem)
          | .ok rf => (.ok (), { cpu1 with registers := rf }, mem)
  else
    (.error (.unknownOpcode opcode), cpu1, mem)

/-- The four process lifecycle states of the source. -/
inductive ProcessState : Type
  | ready
  | running
  | waiting
  | terminated
  deriving DecidableEq, Repr

/-- `Process` from the source: a pid, its own memory and registers, an
instruction-pointer field (never consulted by the CPU, which carries its own
control unit), and a lifecycle state. -/
structure Process : Type where
  pid : Nat
  memory : Storage
  registers : RegisterFile
  instructionPointer : Nat
  state : ProcessState
  deriving DecidableEq, Repr

/-- The `Process` constructor: fresh zeroed memory and registers, pointer 0,
state `ready`. -/
def Process.init (pid memorySize registerCount : Nat) : Process :=
  ⟨pid, Storage.init memorySize, RegisterFile.init registerCount, 0, .ready⟩

/-- JavaScript `parseInt(s, 10)` on the characters of the token: skip leading
whitespace, take an optional sign and then the longest run of decimal digits;
if that run is empty the result is `NaN` (modelled `none`).  In particular a
`0x`-prefixed token parses as `0` — the digits stop at the `x`. -/
def parseIntCore (chars : List Char) : Option Int :=
  let cs := chars.dropWhile fun c =>
    c = ' ' ∨ c = '\t' ∨ c = '\n' ∨ c = '\r'
  let signed : Bool × List Char :=
    match cs with
    | '-' :: rest => (true, rest)
    | '+' :: rest => (false, rest)
    | _ => (false, cs)
  let digits := signed.2.takeWhile Char.isDigit
  if digits.isEmpty then none
  else
    let n : Nat := digits.foldl (fun acc c => acc * 10 + (c.toNat - 48)) 0
    some (if signed.1 then -(n : Int) else (n : Int))

/-- JavaScript `parseInt(s, 10)`. -/
def parseIntBase10 (s : String) : Option Int :=
  parseIntCore s.toList

/-- JavaScript `String.prototype.split(',')` on the characters of the text:
the groups of characters between commas, in order.  The empty string yields
one empty group, as in JavaScript. -/
def splitOnComma : List Char → List (List Char)
  | [] => [[]]
  | c :: rest =>
    match splitOnComma rest with
    | [] => [[]]
    | group :: groups =>
        if c = ',' then [] :: group :: groups else (c :: group) :: groups

/-- `Process.loadProgram`: split the program text on commas, parse every token
with `parseInt(token, 10)`, and write token `i` to memory address `i`. -/
def Process.loadProgram (p : Process) (program : String) : Process :=
  let instructions := (splitOnComma program.toList).map parseIntCore
  { p with
    memory := instructions.enum.foldl
      (fun mem iv => mem.write iv.1 iv.2) p.memory }

/-- `Scheduler` from the source: an ordered queue and a rotating cursor.  The
queue holds references to processes; `schedule` itself never dereferences
them, so the element type is a parameter (the OS layer instantiates it with
heap addresses, the object identities of the JavaScript references). -/
structure Scheduler (α : Type) : Type where
  processQueue : List α
  currentProcessIndex : Nat

instance (α : Type) [DecidableEq α] : DecidableEq (Scheduler α) := fun a b =>
  match a, b with
  | ⟨q₁, i₁⟩, ⟨q₂, i₂⟩ =>
    if h : q₁ = q₂ ∧ i₁ = i₂ then .isTrue (by simp [h.1, h.2])
    else .isFalse (by intro hc; cases hc; exact h ⟨rfl, rfl⟩)

/-- `Scheduler.addProcess`: append to the queue. -/
def Scheduler.addProcess {α : Type} (s : Scheduler α) (p : α) : Scheduler α :=
  { s with processQueue := s.processQueue ++ [p] }

/-- `Scheduler.schedule`: `null` on an empty queue; otherwise the element at
the cursor, with the cursor advanced modulo the queue length.  The queue is
never shrunk and no element is skipped by state. -/
def Scheduler.schedule {α : Type} (s : Scheduler α) : Option α × Scheduler α :=
  if s.processQueue.isEmpty then (none, s)
  else
    (s.processQueue.get? s.currentProcessIndex,
     { s with currentProcessIndex :=
        (s.currentProcessIndex + 1) % s.processQueue.length })

/-- `SimpleOS` from the source.  JavaScript object references are modelled by
a heap: `heap` lists every `Process` object ever constructed, in allocation
order, and both the scheduler queue and the pid table hold heap addresses.
`processes` is the `Map` pid → process with insertion order and overwrite-in-
place semantics; `timerOn` records whether the preemption timer is running
(in the synchronous run loop its callback can never be delivered). -/
structure SimpleOS : Type where
  heap : List Process
  scheduler : Scheduler Nat
  processes : List (Nat × Nat)
  timerOn : Bool
  deriving DecidableEq

/-- The `SimpleOS` constructor: everything empty, timer off. -/
def SimpleOS.init : SimpleOS :=
  ⟨[], ⟨[], 0⟩, [], false⟩

/-- JavaScript `Map.get`. -/
def mapGet (m : List (Nat × Nat)) (k : Nat) : Option Nat :=
  match m with
  | [] => none
  | (k', v) :: rest => if k' = k then some v else mapGet rest k

/-- JavaScript `Map.set`: overwrite in place when the key exists, otherwise
append. -/
def mapSet (m : List (Nat × Nat)) (k v : Nat) : List (Nat × Nat) :=
  match m with
  | [] => [(k, v)]
  | (k', v') :: rest =>
      if k' = k then (k, v) :: rest else (k', v') :: mapSet rest k v

/-- `SimpleOS.createProcess`: draw a pid (`Math.floor(Math.random() * 10000)`
— the `draw` argument models the random outcome, an arbitrary value in
`[0, 10000)`; no collision check is performed), construct a `Process`, add it
to the scheduler and set it in the pid table.  Returns the reference to the
new process. -/
def SimpleOS.createProcess (os : SimpleOS) (memorySize registerCount : Nat)
    (draw : Nat) : Nat × SimpleOS :=
  let pid := draw
  let objId := os.heap.length
  let p := Process.init pid memorySize registerCount
  (objId,
   { os with
     heap := os.heap ++ [p]
     scheduler := os.scheduler.addProcess objId
     processes := mapSet os.processes pid objId })

/-- The shared body of `executeProcess` and the `run` loop, applied to a
process already known to be `ready`: set the state to `running`, build a
fresh CPU sized to the process's register count, run one cycle against the
process's memory, and end `terminated` whether the cycle succeeded or threw
(the error is logged, not re-raised).  The CPU instance — including every
register it wrote — is discarded, and the cycle never writes the process's
memory, so the only net effect on the process is the state change. -/
def SimpleOS.runCycle (p : Process) : Process :=
  let cpu := CPU.init p.registers.regs.length
  let _outcome := cpu.execute p.memory
  { p with state := .terminated }

/-- `SimpleOS.executeProcess`: look the pid up (`ProcessNotFound` when
absent); when the process is `ready`, run `runCycle` on it — through the
reference, so the heap object is updated; otherwise do nothing at all. -/
def SimpleOS.executeProcess (os : SimpleOS) (pid : Nat) :
    Except JsError SimpleOS :=
  match mapGet os.processes pid with
  | none => .error (.processNotFound pid)
  | some objId =>
    match os.heap.get? objId with
    | some p =>
        .ok (if p.state = .ready
             then { os with heap := os.heap.set objId (SimpleOS.runCycle p) }
             else os)
    | none => .ok os

/-- The `while (process)` loop of `SimpleOS.run`, with explicit fuel: `none`
means the loop was still running when the fuel ran out; `some` is the state
after the loop exited (at which point `timer.stop()` ran).  Each iteration
dereferences the scheduled process, runs the ready-check/cycle body on it,
and asks the scheduler for the next process. -/
def SimpleOS.runWhile : Nat → Option Nat → SimpleOS → Option SimpleOS
  | _, none, os => some { os with timerOn := false }
  | 0, some _, _ => none
  | Nat.succ fuel, some objId, os =>
    let heap1 :=
      match os.heap.get? objId with
      | some p =>
          if p.state = .ready then os.heap.set objId (SimpleOS.runCycle p)
          else os.heap
      | none => os.heap
    let os1 := { os with heap := heap1 }
    let next := os1.scheduler.schedule
    SimpleOS.runWhile fuel next.1 { os1 with scheduler := next.2 }

/-- `SimpleOS.run`: one `schedule()` call, then `timer.start()`, then the
while loop (the run loop is synchronous, so the timer callback is never
delivered during it; `timerOn` only records start/stop). -/
def SimpleOS.run (os : SimpleOS) (fuel : Nat) : Option SimpleOS :=
  let first := os.scheduler.schedule
  SimpleOS.runWhile fuel first.1
    { os with scheduler := first.2, timerOn := true }

/-- The C1 scenario's CPU: register bank `R1 = 5`, `R2 = 10` (the other
registers hold their initial 0), instruction pointer 0. -/
def c1CPU : CPU :=
  ⟨⟨[.int 0, .int 5, .int 10, .int 0]⟩, ⟨0⟩⟩

/-- The C1 scenario's memory: word `0x1120` at address 0. -/
def c1Mem : Storage :=
  (Storage.init 16).write 0 (some 0x1120)

/-- The C4 memory: fixed length 4. -/
def c4Mem : Storage := Storage.init 4

/-- The C5 process. -/
def c5Process : Process := Process.init 1 16 4

/-- The C6 coordinator state: two `createProcess` calls on one `SimpleOS`
whose random pid draws both come out 42. -/
def c6OS : SimpleOS :=
  ((SimpleOS.init.createProcess 16 4 42).2.createProcess 16 4 42).2

/-- The C7 processes and scheduler states: `[p0, p1, p2]`, cursor 0, and the
states after one, two and three `schedule()` calls. -/
def c7p0 : Process := Process.init 0 1 1

/-- Second C7 process. -/
def c7p1 : Process := Process.init 1 1 1

/-- Third C7 process. -/
def c7p2 : Process := Process.init 2 1 1

/-- The C7 scheduler before any `schedule()` call. -/
def c7s0 : Scheduler Process := ⟨[c7p0, c7p1, c7p2], 0⟩

/-- The C7 scheduler after one `schedule()` call. -/
def c7s1 : Scheduler Process := c7s0.schedule.2

/-- The C7 scheduler after two `schedule()` calls. -/
def c7s2 : Scheduler Process := c7s1.schedule.2

/-- The C7 scheduler after three `schedule()` calls. -/
def c7s3 : Scheduler Process := c7s2.schedule.2

/-- The C8 witness scenario: fresh 4-register CPU, memory whose word at
address 0 is `0x9000` (opcode `0x9`). -/
def c8CPU : CPU := CPU.init 4

/-- Memory for the C8 witness. -/
def c8Mem : Storage := (Storage.init 4).write 0 (some 0x9000)

/-- The C10 witness coordinator: one process, pid 7, already terminated. -/
def c10OS : SimpleOS :=
  ⟨[{ Process.init 7 1 1 with state := .terminated }], ⟨[0], 0⟩, [(7, 0)],
   false⟩

/-- The C2 coordinator: a single `createProcess` call (pid draw 42) on a
fresh `SimpleOS`. -/
def c2OS : SimpleOS := (SimpleOS.init.createProcess 16 4 42).2

/-- C1: executing one CPU cycle against memory whose word at address 0 is
`0x1120`, on a CPU whose registers hold `R1 = 5`, `R2 = 10`, decodes
opcode 1, operand1 1, operand2 2, destination 0, writes 15 into `R0`, and
advances the instruction pointer from 0 to 1. -/
theorem c1_cpu_execute_add_scenario :
    decodeOpcode 0x1120 = 0x1 ∧
    decodeOperand1 0x1120 = 1 ∧
    decodeOperand2 0x1120 = 2 ∧
    decodeDestination 0x1120 = 0 ∧
    c1CPU.controlUnit.instructionPointer = 0 ∧
    (c1CPU.execute c1Mem).1 = .ok () ∧
    ((c1CPU.execute c1Mem).2.1).registers.read 0 = .ok (.int 15) ∧
    ((c1CPU.execute c1Mem).2.1).controlUnit.instructionPointer = 1 := by
  decide

/-- C3: `ALU.execute` with operation `DIV` and divisor 0 never fails — the
source has no zero check, `a / 0` is a non-finite JavaScript number and
`Math.floor` returns it, so the call succeeds for every integer dividend
(concretely, dividend 1 yields `Infinity`), contradicting the claimed
`DivisionByZero` error. -/
theorem c3_alu_div_by_zero_does_not_fail :
    (∀ a : Int, ∃ v, ALU.execute "DIV" (.int a) (.int 0) = .ok v) ∧
    ALU.execute "DIV" (.int 1) (.int 0) = .ok .posInf := by
  refine ⟨fun a => ⟨_, rfl⟩, by decide⟩

/-- C4: `Storage` performs no bounds check — on a memory of length 4,
reading address 10 silently yields `undefined` rather than failing with
`AddressOutOfRange`, and writing address 10 silently lengthens the array
(the written value reads back) rather than failing. -/
theorem c4_storage_access_is_unchecked :
    c4Mem.read 10 = none ∧
    c4Mem.read 0 = some 0 ∧
    (c4Mem.write 10 (some 7)).read 10 = some 7 := by
  decide

/-- C5: `loadProgram` parses every token with `parseInt(token, 10)`, so a
`0x`-hex token is not stored at its integer value: loading `"17,0x1120"`
stores 17 at address 0 but 0 — not `0x1120 = 4384` — at address 1,
contradicting the claimed hex support. -/
theorem c5_loadProgram_misparses_hex_tokens :
    parseIntBase10 "0x1120" = some 0 ∧
    (c5Process.loadProgram "17,0x1120").memory.read 0 = some 17 ∧
    (c5Process.loadProgram "17,0x1120").memory.read 1 = some 0 ∧
    (c5Process.loadProgram "17,0x1120").memory.read 1 ≠ some 0x1120 := by
  decide

/-- C6: `createProcess` draws pids at random with no collision check — when
two draws on one coordinator both come out 42, the two created processes
share pid 42 (pids are not pairwise distinct), and the second table entry
overwrites the first while the scheduler queue keeps both processes. -/
theorem c6_createProcess_pid_collision :
    c6OS.heap.map Process.pid = [42, 42] ∧
    ¬ (c6OS.heap.map Process.pid).Nodup ∧
    c6OS.scheduler.processQueue.length = 2 ∧
    c6OS.processes = [(42, 1)] := by
  decide

/-- C9: the ALU on integer operands computes `ADD = a + b`, `SUB = a - b`,
`MUL = a * b`, and `DIV = ⌊a / b⌋` (floor division) when `b ≠ 0`; every
operation string outside the four fails with `UnsupportedOperation`. -/
theorem c9_alu_execute_spec (a b : Int) (op : String) :
    ALU.execute "ADD" (.int a) (.int b) = .ok (.int (a + b)) ∧
    ALU.execute "SUB" (.int a) (.int b) = .ok (.int (a - b)) ∧
    ALU.execute "MUL" (.int a) (.int b) = .ok (.int (a * b)) ∧
    (b ≠ 0 → ALU.execute "DIV" (.int a) (.int b) = .ok (.int (Int.fdiv a b))) ∧
    (op ≠ "ADD" → op ≠ "SUB" → op ≠ "MUL" → op ≠ "DIV" →
      ALU.execute op (.int a) (.int b) = .error (.unsupportedOperation op)) := by
  refine ⟨rfl, rfl, rfl, fun hb => ?_, fun h1 h2 h3 h4 => ?_⟩
  · simp [ALU.execute, mathFloorDiv, hb]
  · simp [ALU.execute, h1, h2, h3, h4]

/-- Witness for C9 at `a = 7`, `b = 2`, `op = "XOR"`. -/
theorem c9_alu_execute_spec_witness :
    ALU.execute "DIV" (.int 7) (.int 2) = .ok (.int 3) ∧
    ALU.execute "XOR" (.int 7) (.int 2) =
      .error (.unsupportedOperation "XOR") := by
  constructor
  · have h := (c9_alu_execute_spec 7 2 "XOR").2.2.2.1 (by decide)
    rwa [show Int.fdiv 7 2 = 3 from by decide] at h
  · exact (c9_alu_execute_spec 7 2 "XOR").2.2.2.2
      (by decide) (by decide) (by decide) (by decide)

/-- C7: on a scheduler holding `[p0, p1, p2]` with cursor 0, four consecutive
`schedule()` calls return `p0, p1, p2, p0`; and for every scheduler,
`schedule()` leaves the queue untouched and returns exactly the element at
the cursor — `none` on an empty queue, with no removal and no skipping by
state. -/
theorem c7_scheduler_round_robin :
    (c7s0.schedule.1 = some c7p0 ∧ c7s1.schedule.1 = some c7p1 ∧
     c7s2.schedule.1 = some c7p2 ∧ c7s3.schedule.1 = some c7p0) ∧
    (∀ (α : Type) (s : Scheduler α),
      s.schedule.2.processQueue = s.processQueue ∧
      s.schedule.1 =
        (if s.processQueue.isEmpty then none
         else s.processQueue.get? s.currentProcessIndex)) := by
  constructor
  · exact ⟨by decide, by decide, by decide, by decide⟩
  · intro α s
    by_cases h : s.processQueue.isEmpty <;>
      simp [Scheduler.schedule, h]

/-- C8: when the fetched word's opcode field is neither `0x1` nor `0x2`, one
CPU cycle fails with `UnknownOpcode` carrying that opcode, and both the
register bank and the memory are exactly what they were before the cycle. -/
theorem c8_unknown_opcode_frame (cpu : CPU) (mem : Storage)
    (h1 : decodeOpcode
      (cellToNumber (mem.read cpu.controlUnit.instructionPointer)) ≠ 0x1)
    (h2 : decodeOpcode
      (cellToNumber (mem.read cpu.controlUnit.instructionPointer)) ≠ 0x2) :
    (cpu.execute mem).1 = .error (.unknownOpcode
      (decodeOpcode
        (cellToNumber (mem.read cpu.controlUnit.instructionPointer)))) ∧
    (cpu.execute mem).2.1.registers = cpu.registers ∧
    (cpu.execute mem).2.2 = mem := by
  simp [CPU.execute, ControlUnit.fetchInstruction, h1, h2]

/-- Witness for C8 at instruction word `0x9000`. -/
theorem c8_unknown_opcode_frame_witness :
    decodeOpcode
      (cellToNumber (c8Mem.read c8CPU.controlUnit.instructionPointer)) = 9 ∧
    (c8CPU.execute c8Mem).1 = .error (.unknownOpcode 9) ∧
    (c8CPU.execute c8Mem).2.1.registers = c8CPU.registers ∧
    (c8CPU.execute c8Mem).2.2 = c8Mem := by
  have h := c8_unknown_opcode_frame c8CPU c8Mem (by decide) (by decide)
  have h9 : decodeOpcode
      (cellToNumber (c8Mem.read c8CPU.controlUnit.instructionPointer)) = 9 := by
    decide
  rw [h9] at h
  exact ⟨h9, h.1, h.2.1, h.2.2⟩

/-- C10: `executeProcess` on a pid whose process is in any state other than
`ready` raises nothing and returns the coordinator state entirely unchanged —
in particular the process's state, memory, registers and instruction pointer
are untouched. -/
theorem c10_executeProcess_non_ready_is_noop (os : SimpleOS)
    (pid objId : Nat) (p : Process)
    (hm : mapGet os.processes pid = some objId)
    (hp : os.heap.get? objId = some p)
    (hs : p.state ≠ .ready) :
    os.executeProcess pid = .ok os := by
  have hp' : os.heap[objId]? = some p := by
    rw [← List.get?_eq_getElem?]; exact hp
  simp [SimpleOS.executeProcess, hm, hp', hs]

/-- Witness for C10 on a terminated process with pid 7. -/
theorem c10_executeProcess_non_ready_is_noop_witness :
    mapGet c10OS.processes 7 = some 0 ∧
    c10OS.heap.get? 0 = some { Process.init 7 1 1 with state := .terminated } ∧
    ({ Process.init 7 1 1 with state := .terminated } : Process).state ≠
      .ready ∧
    c10OS.executeProcess 7 = .ok c10OS :=
  ⟨by decide, by decide, by decide,
   c10_executeProcess_non_ready_is_noop c10OS 7 0
     { Process.init 7 1 1 with state := .terminated }
     (by decide) (by decide) (by decide)⟩

/-- Once the scheduler queue holds exactly one process reference and the
cursor sits at 0, the `while (process)` loop of `run` consumes any amount of
fuel without exiting: `schedule()` keeps returning that same reference
(`(0 + 1) % 1 = 0`) no matter what state the process is in, and the loop body
never shrinks the queue. -/
theorem runWhile_singleton_queue_loops :
    ∀ (fuel objId q : Nat) (heap : List Process) (table : List (Nat × Nat))
      (timer : Bool),
      SimpleOS.runWhile fuel (some objId) ⟨heap, ⟨[q], 0⟩, table, timer⟩ =
        none := by
  intro fuel
  induction fuel with
  | zero => intro objId q heap table timer; rfl
  | succ n ih =>
    intro objId q heap table timer
    rw [SimpleOS.runWhile]
    simp only [Scheduler.schedule]
    norm_num
    exact ih q q _ table timer

/-- C2: `run()` on a coordinator with one created process never returns, for
every amount of fuel — even though the process reaches `terminated` during
the first loop iteration, `schedule()` keeps returning it forever, so the
loop has no exit and `timer.stop()` is never reached (the model returns
`some` final state, with the timer stopped, exactly when the loop exits). -/
theorem c2_run_never_terminates (fuel : Nat) :
    c2OS.run fuel = none :=
  runWhile_singleton_queue_loops fuel 0 0 _ _ _
